import Mathlib

/-!
Verification development for `openmdao/gui/static/js/openmdao/BaseFrame.js`.

The file shallowly embeds the operations of the `BaseFrame` widget class:
pixel geometry is `ℚ` (window dimensions, element offsets and sizes),
JavaScript truthiness of the string arguments is made explicit, DOM state is
an explicit record, and the global `openmdao` object (unique-id counter and
frame registry) is an explicit state record threaded through `init`.
-/

namespace BaseFrame

/-! ### Geometry of `popup` (BaseFrame.js lines 112-148)

`popup` first clamps the element's size to at most 80% of the window
(`window.innerHeight*0.8`, `window.innerWidth*0.8`), then, in a deferred
callback, reads the dialog's offset and clamps `top` and `left` so the dialog
stays inside the window, applying `dialog({position: [top, left]})` only when
the clamp changed something. -/

/-- The initial size clamp of `popup`:
`if (this.elm.height() > window.innerHeight*0.8) this.elm.height(window.innerHeight*0.8);`
and the analogous statement for the width.  Returns the element's
(height, width) after the two `if` statements. -/
def clampSize (h w innerHeight innerWidth : ℚ) : ℚ × ℚ :=
  let h' := if h > innerHeight * (8/10) then innerHeight * (8/10) else h
  let w' := if w > innerWidth * (8/10) then innerWidth * (8/10) else w
  (h', w')

/-- The body of the deferred `setTimeout` callback of `popup`: clamp `top`
into `[0, innerHeight - outerHeight]` (the `top < 0` branch taking priority)
and `left` into `[0, innerWidth - outerWidth]`.  Returns the clamped
(top, left). -/
def clampOffset (top left outerHeight outerWidth innerHeight innerWidth : ℚ) :
    ℚ × ℚ :=
  let top' :=
    if top < 0 then 0
    else if top + outerHeight > innerHeight then innerHeight - outerHeight
    else top
  let left' :=
    if left < 0 then 0
    else if left + outerWidth > innerWidth then innerWidth - outerWidth
    else left
  (top', left')

/-- The final applied position of the dialog after the deferred pass:
`dlg.dialog({position: [top, left]})` is issued only when the clamp changed
the offset (`top !== off.top || left !== off.left`); otherwise the dialog
keeps its original offset. -/
def finalPosition (top left outerHeight outerWidth innerHeight innerWidth : ℚ) :
    ℚ × ℚ :=
  let c := clampOffset top left outerHeight outerWidth innerHeight innerWidth
  if c.1 ≠ top ∨ c.2 ≠ left then c else (top, left)

/-! ### `setTitle` (BaseFrame.js lines 152-157)

`setTitle(title)` guards on JavaScript truthiness of `title`: `null`,
`undefined` and `""` are falsy, every other string is truthy.  On a truthy
argument it stores the title and pushes it to the dialog
(`this.elm.dialog('option', 'title', title)`). -/

/-- JavaScript truthiness of a nullable string: `null`/`undefined` (here
`none`) and the empty string are falsy. -/
def strTruthy : Option String → Bool
  | none => false
  | some s => s ≠ ""

/-- The title state a frame carries: the stored `this.title` field and the
title currently displayed by the dialog widget. -/
structure TitleState where
  stored : Option String
  displayed : Option String
  deriving DecidableEq, Repr

/-- Embeds `BaseFrame.prototype.setTitle`: `if (title) { this.title = title;
this.elm.dialog('option', 'title', title); }`. -/
def setTitle (st : TitleState) (title : Option String) : TitleState :=
  if strTruthy title then { stored := title, displayed := title } else st

/-! ### `init` and the global `openmdao` state (BaseFrame.js lines 18-72)

`init(id, title, menu)` stores its arguments, generates an id from the
monotonic counter `openmdao.uniqueID` when `id` is falsy, registers the frame
in `openmdao.frames`, looks the element up in the document
(`jQuery("#"+this.id)`), records its parent when it was found, and otherwise
synthesizes a fresh `<div>` and calls `this.popup(this.title)` exactly once.
In either case `this.elm.html("")` then clears the element's children.

The document is modelled as an association list from element id to parent
element id: `jQuery("#"+id)` (i.e. `document.getElementById`) finds only
elements attached to the document tree, and every attached element has a
parent node, hence a successful lookup always yields a parent. -/

/-- Update (or insert) the binding of `k` in an association list, keeping the
position of an existing binding — the behaviour of `obj[k] = v` on a
JavaScript object used as a map. -/
def upsert (k : String) (v : α) : List (String × α) → List (String × α)
  | [] => [(k, v)]
  | (k', v') :: rest =>
    if k' = k then (k, v) :: rest else (k', v') :: upsert k v rest

/-- The parts of the global `openmdao` object touched by `init`, together
with the document.  `uniqueID = 0` models the initial `undefined` (both are
falsy, and `openmdao.uniqueID` is never set to `0` by the code). -/
structure Global where
  uniqueID : Nat
  /-- Registry `openmdao.frames` from frame id to frame instance, the
  instance identified by an abstract token. -/
  frames : List (String × Nat)
  /-- the document: attached element id ↦ parent element id. -/
  doc : List (String × String)
  /-- children of each element, keyed by element id. -/
  contents : List (String × List String)
  deriving DecidableEq, Repr

/-- The instance fields of a frame that `init` establishes, plus a count of
the `this.popup(...)` calls `init` itself made. -/
structure InitResult where
  fid : String
  par : Option String
  popupCalls : Nat
  deriving DecidableEq, Repr

/-- The id generated for a frame when `init` received a falsy id:
`"BaseFrame" + openmdao.uniqueID` after the counter was bumped to `n`. -/
def genId (n : Nat) : String := "BaseFrame" ++ Nat.repr n

/-- Embeds `BaseFrame.prototype.init`, as a function of the global state, an
abstract token `inst` naming this instance, and the (nullable) `id`
argument.  Follows the source order: generate/store the id, register in
`openmdao.frames`, look the element up (only a truthy `id` was looked up),
set `this.par` and possibly synthesize the element and call `popup`, then
clear the element's content with `this.elm.html("")`. -/
def init (g : Global) (inst : Nat) (idArg : Option String) :
    Global × InitResult :=
  let (g1, theId) :=
    if strTruthy idArg then (g, idArg.getD "")
    else
      let n := if g.uniqueID ≠ 0 then g.uniqueID + 1 else 1
      ({ g with uniqueID := n }, genId n)
  let g2 := { g1 with frames := upsert theId inst g1.frames }
  match if strTruthy idArg then g2.doc.lookup theId else none with
  | some p =>
    ({ g2 with contents := upsert theId [] g2.contents },
     { fid := theId, par := some p, popupCalls := 0 })
  | none =>
    ({ g2 with contents := upsert theId [] g2.contents },
     { fid := theId, par := none, popupCalls := 1 })

/-! ### `close` (BaseFrame.js lines 159-174)

`close()` first runs the optional duck-typed teardown hook
(`this.destructor()`), uncaught; then, depending on whether a parent was
recorded at `init` time, either destroys the dialog behaviour and re-attaches
the element to the parent, showing it, or destroys the dialog behaviour and
removes the element from the document. -/

/-- An opaque-to-this-file JavaScript exception value. -/
structure JsError where
  msg : String
  deriving DecidableEq, Repr

/-- The DOM/dialog state of a frame's element relevant to `close`:
where it is attached (`none` = not in the document), whether it is shown,
and whether the dialog behaviour is active. -/
structure ElemState where
  attachedTo : Option String
  visible : Bool
  isDialog : Bool
  deriving DecidableEq, Repr

/-- The state `close` reads: the recorded parent `this.par`, the element,
and the optional teardown hook.  The hook's body is subclass code outside
this file, so it is modelled by its outcome alone (`none`: no hook defined;
`some r`: a hook that returns, or throws, `r`). -/
structure CloseState where
  par : Option String
  elem : ElemState
  destructor : Option (Except JsError Unit)
  deriving Repr

/-- Embeds `BaseFrame.prototype.close`, returning the thrown exception (if any)
together with the registry and element state afterwards.  A throwing
teardown hook aborts `close` before any of its own effects. -/
def close (frames : List (String × Nat)) (s : CloseState) :
    Option JsError × (List (String × Nat) × ElemState) :=
  match s.destructor with
  | some (Except.error e) => (some e, (frames, s.elem))
  | _ =>
    match s.par with
    | some p =>
      -- this.elm.dialog('destroy'); this.elm.appendTo(this.par); this.elm.show();
      (none, (frames, { attachedTo := some p, visible := true, isDialog := false }))
    | none =>
      -- this.elm.dialog('destroy'); this.elm.remove();
      (none, (frames, { attachedTo := none, visible := s.elem.visible, isDialog := false }))

/-! ### `openmdao.update` (BaseFrame.js lines 3-8)

The broadcast iterates `openmdao.frames` with `jQuery.each`, calling
`frame.update()` on each entry.  Nothing catches: an exception from one
frame's `update` propagates out of the loop, so later entries are never
visited.  Each registered frame is modelled by its id together with the
outcome of its `update()` call. -/

/-- Embeds `openmdao.update`: returns the list of frame ids on which `update()` was
invoked (in registry order), and the exception that escaped, if any. -/
def updateAll : List (String × Except JsError Unit) → List String × Option JsError
  | [] => ([], none)
  | (i, Except.error e) :: _ => ([i], some e)
  | (i, Except.ok _) :: rest =>
    let r := updateAll rest
    (i :: r.1, r.2)

/-! ### Decimal representation facts

`genId` appends the decimal representation of the counter to the string
`"BaseFrame"`; distinctness of generated ids reduces to injectivity of
`Nat.repr`, proved here through a decoding round trip. -/

/-- Decode a decimal digit character. -/
def digitVal (c : Char) : Nat := c.toNat - '0'.toNat

/-- Decode a most-significant-first list of decimal digit characters. -/
def decodeDigits (l : List Char) : Nat :=
  l.foldl (fun acc c => acc * 10 + digitVal c) 0

theorem decodeDigits_append (l : List Char) (c : Char) :
    decodeDigits (l ++ [c]) = decodeDigits l * 10 + digitVal c := by
  simp [decodeDigits, List.foldl_append]

theorem digitVal_digitChar {d : Nat} (h : d < 10) :
    digitVal (Nat.digitChar d) = d := by
  interval_cases d <;> rfl

theorem toDigitsCore_append (fuel : Nat) :
    ∀ (n : Nat) (ds : List Char),
      Nat.toDigitsCore 10 fuel n ds = Nat.toDigitsCore 10 fuel n [] ++ ds := by
  induction fuel with
  | zero => intro n ds; simp [Nat.toDigitsCore]
  | succ fuel ih =>
    intro n ds
    simp only [Nat.toDigitsCore]
    by_cases h : n / 10 = 0
    · simp [h]
    · simp only [h, if_false]
      rw [ih (n / 10) (Nat.digitChar (n % 10) :: ds),
        ih (n / 10) (Nat.digitChar (n % 10) :: [])]
      simp

theorem decode_toDigitsCore (fuel : Nat) :
    ∀ n : Nat, n < fuel → decodeDigits (Nat.toDigitsCore 10 fuel n []) = n := by
  induction fuel with
  | zero => intro n h; omega
  | succ fuel ih =>
    intro n h
    simp only [Nat.toDigitsCore]
    by_cases h0 : n / 10 = 0
    · have hn : n < 10 := by omega
      simp only [h0, if_true]
      show decodeDigits ([] ++ [Nat.digitChar (n % 10)]) = n
      rw [decodeDigits_append, digitVal_digitChar (Nat.mod_lt _ (by norm_num))]
      simp [decodeDigits]
      omega
    · have hn : 0 < n := by omega
      have hlt : n / 10 < fuel := by
        have := Nat.div_lt_self hn (by norm_num : 1 < 10)
        omega
      simp only [h0, if_false]
      rw [toDigitsCore_append fuel (n / 10) [Nat.digitChar (n % 10)],
        decodeDigits_append, ih (n / 10) hlt,
        digitVal_digitChar (Nat.mod_lt _ (by norm_num))]
      omega

theorem natRepr_injective : Function.Injective Nat.repr := by
  intro m n h
  have hdata : Nat.toDigits 10 m = Nat.toDigits 10 n := congrArg String.data h
  have hm := decode_toDigitsCore (m + 1) m (Nat.lt_succ_self m)
  have hn := decode_toDigitsCore (n + 1) n (Nat.lt_succ_self n)
  rw [show Nat.toDigitsCore 10 (m + 1) m [] = Nat.toDigits 10 m from rfl] at hm
  rw [show Nat.toDigitsCore 10 (n + 1) n [] = Nat.toDigits 10 n from rfl] at hn
  rw [hdata, hn] at hm
  exact hm.symm

theorem genId_injective : Function.Injective genId := by
  intro m n h
  apply natRepr_injective
  have hdata := congrArg String.data h
  simp only [genId] at hdata
  have : ("BaseFrame".data ++ (Nat.repr m).data) =
      ("BaseFrame".data ++ (Nat.repr n).data) := hdata
  have := List.append_cancel_left this
  exact String.ext this

/-! ### Helper lemmas -/

theorem lookup_upsert (k : String) (v : α) :
    ∀ l : List (String × α), (upsert k v l).lookup k = some v := by
  intro l
  induction l with
  | nil => simp [upsert, List.lookup]
  | cons hd tl ih =>
    obtain ⟨k', v'⟩ := hd
    by_cases h : k' = k
    · simp [upsert, h, List.lookup]
    · simp only [upsert, h, if_false]
      have hk : (k == k') = false := by
        simp [beq_eq_false_iff_ne, Ne.symm h]
      rw [List.lookup_cons, hk]
      exact ih

theorem finalPosition_eq_clampOffset (top left oh ow ih iw : ℚ) :
    finalPosition top left oh ow ih iw = clampOffset top left oh ow ih iw := by
  unfold finalPosition
  by_cases h : (clampOffset top left oh ow ih iw).1 ≠ top ∨
      (clampOffset top left oh ow ih iw).2 ≠ left
  · simp [h]
  · push_neg at h
    simp only [h.1, h.2, ne_eq, not_true_eq_false, or_self, if_false]
    exact (Prod.ext h.1.symm h.2.symm)

/-! ### Claim theorems -/

/-- C1: for a dialog whose initial offset places it partly above the viewport
top or past the right edge, the deferred corrective pass of `popup` produces
a final applied position with `top ≥ 0`, `left ≥ 0`,
`top + outerHeight ≤ innerHeight` and `left + outerWidth ≤ innerWidth`,
provided the dialog's outer dimensions are no larger than the viewport
dimensions. -/
theorem popup_corrective_pass_in_bounds
    (top left oh ow ih iw : ℚ) (hoh : oh ≤ ih) (how : ow ≤ iw)
    (hout : top < 0 ∨ left + ow > iw) :
    0 ≤ (finalPosition top left oh ow ih iw).1 ∧
    0 ≤ (finalPosition top left oh ow ih iw).2 ∧
    (finalPosition top left oh ow ih iw).1 + oh ≤ ih ∧
    (finalPosition top left oh ow ih iw).2 + ow ≤ iw := by
  rw [finalPosition_eq_clampOffset]
  dsimp only [clampOffset]
  refine ⟨?_, ?_, ?_, ?_⟩ <;> split_ifs <;> linarith

/-- Witness for `popup_corrective_pass_in_bounds` at a dialog of outer size
100×100 starting at offset (-5, 950) in a 1000×1000 viewport. -/
theorem popup_corrective_pass_in_bounds_witness :
    0 ≤ (finalPosition (-5) 950 100 100 1000 1000).1 ∧
    0 ≤ (finalPosition (-5) 950 100 100 1000 1000).2 ∧
    (finalPosition (-5) 950 100 100 1000 1000).1 + 100 ≤ 1000 ∧
    (finalPosition (-5) 950 100 100 1000 1000).2 + 100 ≤ 1000 :=
  popup_corrective_pass_in_bounds (-5) 950 100 100 1000 1000
    (by norm_num) (by norm_num) (Or.inl (by norm_num))

/-- C6: after the initial size-clamping step of `popup` the element's height
is at most 80% of `window.innerHeight` and its width at most 80% of
`window.innerWidth`, and a dimension already within its limit is left
unchanged. -/
theorem popup_size_clamp (h w ih iw : ℚ) :
    (clampSize h w ih iw).1 ≤ ih * (8/10) ∧
    (clampSize h w ih iw).2 ≤ iw * (8/10) ∧
    (h ≤ ih * (8/10) → (clampSize h w ih iw).1 = h) ∧
    (w ≤ iw * (8/10) → (clampSize h w ih iw).2 = w) := by
  dsimp only [clampSize]
  refine ⟨?_, ?_, ?_, ?_⟩ <;> intros <;> split_ifs <;> first | rfl | linarith

/-- Witness for `popup_size_clamp`: a 900×500 element in a 1000×1000 window
is clamped to height 800 and keeps its width. -/
theorem popup_size_clamp_witness :
    (clampSize 900 500 1000 1000).1 ≤ 1000 * (8/10) ∧
    (clampSize 900 500 1000 1000).2 ≤ 1000 * (8/10) ∧
    ((900 : ℚ) ≤ 1000 * (8/10) → (clampSize 900 500 1000 1000).1 = 900) ∧
    ((500 : ℚ) ≤ 1000 * (8/10) → (clampSize 900 500 1000 1000).2 = 500) :=
  popup_size_clamp 900 500 1000 1000

/-- C5: `setTitle` with an empty string or null leaves both the stored title
and the displayed title unchanged; `setTitle` with a non-empty string updates
both to that string. -/
theorem setTitle_cases (st : TitleState) :
    setTitle st none = st ∧
    setTitle st (some "") = st ∧
    (∀ s : String, s ≠ "" →
      setTitle st (some s) = { stored := some s, displayed := some s }) := by
  refine ⟨rfl, rfl, ?_⟩
  intro s hs
  simp [setTitle, strTruthy, hs]

/-- Witness for `setTitle_cases` on the state (stored "a", displayed "a"),
updated with the non-empty title "X". -/
theorem setTitle_cases_witness :
    setTitle ⟨some "a", some "a"⟩ (some "X") = ⟨some "X", some "X"⟩ :=
  (setTitle_cases ⟨some "a", some "a"⟩).2.2 "X" (by decide)

/-- C2: for an element with no existing parent at `init` time — i.e. the id
argument is falsy, or it names no element attached to the document (attached
elements always have a parent) — `init` makes exactly one call to `popup`. -/
theorem init_no_parent_popup_once (g : Global) (inst : Nat)
    (idArg : Option String)
    (h : strTruthy idArg = true → g.doc.lookup (idArg.getD "") = none) :
    (init g inst idArg).2.popupCalls = 1 := by
  unfold init
  by_cases ht : strTruthy idArg = true
  · simp [ht, h ht]
  · simp [ht]

/-- Witness for `init_no_parent_popup_once`: `init` with no id on a fresh
global state. -/
theorem init_no_parent_popup_once_witness :
    (init ⟨0, [], [], []⟩ 1 none).2.popupCalls = 1 :=
  init_no_parent_popup_once ⟨0, [], [], []⟩ 1 none (by intro h; cases h)

/-- C7: `init` with an id that references an existing, parented element does
not invoke `popup`, and the element's prior child content is cleared. -/
theorem init_existing_element (g : Global) (inst : Nat) (id p : String)
    (hid : id ≠ "") (hp : g.doc.lookup id = some p) :
    (init g inst (some id)).2.popupCalls = 0 ∧
    (init g inst (some id)).1.contents.lookup id = some [] := by
  have ht : strTruthy (some id) = true := by simp [strTruthy, hid]
  unfold init
  simp only [ht, if_true, Option.getD_some]
  simp [hp, lookup_upsert]

/-- Witness for `init_existing_element`: an element "d" attached under
"body" with prior content, bound by `init`. -/
theorem init_existing_element_witness :
    (init ⟨0, [], [("d", "body")], [("d", ["old"])]⟩ 1 (some "d")).2.popupCalls = 0 ∧
    (init ⟨0, [], [("d", "body")], [("d", ["old"])]⟩ 1 (some "d")).1.contents.lookup "d"
      = some [] :=
  init_existing_element ⟨0, [], [("d", "body")], [("d", ["old"])]⟩ 1 "d" "body"
    (by decide) (by decide)

/-- C4: `init` with no (truthy) id bumps the monotonic counter by one,
assigns the freshly generated identifier `genId (uniqueID + 1)` — distinct
from every identifier the counter generated before — and registers this
instance in `openmdao.frames` under that identifier. -/
theorem init_generated_id_fresh_and_registered (g : Global) (inst : Nat)
    (idArg : Option String) (hfalsy : strTruthy idArg = false) :
    (init g inst idArg).1.uniqueID = g.uniqueID + 1 ∧
    (init g inst idArg).2.fid = genId (g.uniqueID + 1) ∧
    (∀ k, 1 ≤ k → k ≤ g.uniqueID → (init g inst idArg).2.fid ≠ genId k) ∧
    (init g inst idArg).1.frames.lookup (init g inst idArg).2.fid = some inst := by
  have hcounter : (if g.uniqueID ≠ 0 then g.uniqueID + 1 else 1) = g.uniqueID + 1 := by
    split_ifs with h0 <;> omega
  unfold init
  simp only [hfalsy, Bool.false_eq_true, if_false, hcounter]
  refine ⟨by trivial, by trivial, ?_, ?_⟩
  · intro k _ hk heq
    have := genId_injective heq
    omega
  · exact lookup_upsert _ _ _

/-- Witness for `init_generated_id_fresh_and_registered` on a state whose
counter is 3: the counter becomes 4, the new id differs from the previously
generated `genId 3`, and the registry maps the new id to instance 7. -/
theorem init_generated_id_fresh_and_registered_witness :
    (init ⟨3, [], [], []⟩ 7 none).1.uniqueID = 4 ∧
    (init ⟨3, [], [], []⟩ 7 none).2.fid ≠ genId 3 ∧
    (init ⟨3, [], [], []⟩ 7 none).1.frames.lookup
      (init ⟨3, [], [], []⟩ 7 none).2.fid = some 7 :=
  ⟨(init_generated_id_fresh_and_registered ⟨3, [], [], []⟩ 7 none rfl).1,
   (init_generated_id_fresh_and_registered ⟨3, [], [], []⟩ 7 none rfl).2.2.1 3
     (by decide) (by decide),
   (init_generated_id_fresh_and_registered ⟨3, [], [], []⟩ 7 none rfl).2.2.2⟩

/-- C3: provided the optional teardown hook does not throw, `close` on a
frame with a recorded parent re-attaches the element as a visible child of
that parent and destroys the dialog behaviour, leaving the element in the
document; `close` on a frame with no recorded parent destroys the dialog
behaviour and removes the element from the document. -/
theorem close_redock_or_remove (frames : List (String × Nat)) (s : CloseState)
    (hd : ∀ e, s.destructor ≠ some (Except.error e)) :
    (∀ p, s.par = some p →
      close frames s = (none, (frames, ⟨some p, true, false⟩))) ∧
    (s.par = none →
      close frames s = (none, (frames, ⟨none, s.elem.visible, false⟩))) := by
  constructor
  · intro p hp
    unfold close
    match hdes : s.destructor with
    | none => rw [hp]
    | some (Except.ok u) => rw [hp]
    | some (Except.error e) => exact absurd hdes (hd e)
  · intro hp
    unfold close
    match hdes : s.destructor with
    | none => rw [hp]
    | some (Except.ok u) => rw [hp]
    | some (Except.error e) => exact absurd hdes (hd e)

/-- Witness for `close_redock_or_remove`: a dialog whose parent "body" was
recorded is re-docked under "body", made visible, its dialog behaviour
destroyed, the registry untouched. -/
theorem close_redock_or_remove_witness :
    close [("a", 1)] ⟨some "body", ⟨some "ui", false, true⟩, none⟩ =
      (none, ([("a", 1)], ⟨some "body", true, false⟩)) :=
  (close_redock_or_remove [("a", 1)] ⟨some "body", ⟨some "ui", false, true⟩, none⟩
    (fun e h => by cases h)).1 "body" rfl

/-- C9: `close` never modifies the global frame registry: whatever the
frame's state, the registry afterwards has exactly the same entries,
including the closed frame's own entry. -/
theorem close_preserves_registry (frames : List (String × Nat)) (s : CloseState) :
    (close frames s).2.1 = frames := by
  unfold close
  match s.destructor with
  | none => cases s.par <;> rfl
  | some (Except.ok u) => cases s.par <;> rfl
  | some (Except.error e) => rfl

/-- C10: if the optional teardown hook invoked at the start of `close`
throws, `close` performs none of its subsequent effects: the exception
propagates, the dialog behaviour is not destroyed, the element is neither
re-parented nor removed, and the registry is unchanged. -/
theorem close_destructor_throws (frames : List (String × Nat)) (s : CloseState)
    (e : JsError) (h : s.destructor = some (Except.error e)) :
    close frames s = (some e, (frames, s.elem)) := by
  unfold close
  rw [h]

/-- Witness for `close_destructor_throws`: a throwing hook leaves the dialog
element exactly as it was. -/
theorem close_destructor_throws_witness :
    close [("a", 1)] ⟨some "body", ⟨some "ui", true, true⟩,
        some (Except.error ⟨"boom"⟩)⟩ =
      (some ⟨"boom"⟩, ([("a", 1)], ⟨some "ui", true, true⟩)) :=
  close_destructor_throws [("a", 1)]
    ⟨some "body", ⟨some "ui", true, true⟩, some (Except.error ⟨"boom"⟩)⟩
    ⟨"boom"⟩ rfl

/-- C8: the global `openmdao.update` broadcast invokes `update()` exactly
once on every frame in the registry (the visited list is exactly the
registry's id list); if some frame's `update()` throws, the exception
propagates and the frames after it in the registry are never visited. -/
theorem updateAll_broadcast :
    (∀ l : List (String × Except JsError Unit),
      (∀ p ∈ l, p.2 = Except.ok ()) →
      updateAll l = (l.map Prod.fst, none)) ∧
    (∀ (pre : List (String × Except JsError Unit)) (i : String) (e : JsError)
        (post : List (String × Except JsError Unit)),
      (∀ p ∈ pre, p.2 = Except.ok ()) →
      updateAll (pre ++ (i, Except.error e) :: post) =
        (pre.map Prod.fst ++ [i], some e)) := by
  constructor
  · intro l
    induction l with
    | nil => intro _; rfl
    | cons hd tl ih =>
      intro hok
      obtain ⟨i, r⟩ := hd
      have hr : r = Except.ok () := hok (i, r) (List.mem_cons_self _ _)
      subst hr
      simp only [updateAll, List.map_cons]
      rw [ih (fun p hp => hok p (List.mem_cons_of_mem _ hp))]
  · intro pre i e post
    induction pre with
    | nil => intro _; rfl
    | cons hd tl ih =>
      intro hok
      obtain ⟨j, r⟩ := hd
      have hr : r = Except.ok () := hok (j, r) (List.mem_cons_self _ _)
      subst hr
      simp only [List.cons_append, updateAll, List.map_cons, List.append_eq]
      rw [ih (fun p hp => hok p (List.mem_cons_of_mem _ hp))]

/-- Witness for `updateAll_broadcast`: frame "b" throws, so "a" and "b" are
visited, "c" is not, and the exception escapes. -/
theorem updateAll_broadcast_witness :
    updateAll [("a", Except.ok ()), ("b", Except.error ⟨"boom"⟩),
        ("c", Except.ok ())] =
      (["a", "b"], some ⟨"boom"⟩) :=
  updateAll_broadcast.2 [("a", Except.ok ())] "b" ⟨"boom"⟩ [("c", Except.ok ())]
    (by simp)

end BaseFrame
